import Mathlib

set_option linter.unusedVariables false

/-!
Shallow embedding of the Wayland display-enumeration subsystem of
ubuntu/ubuntu-insights.

The subsystem appears twice in the repository with near-identical logic:

* `src/insights/internal/collector/sysinfo/hardware/wayland_displays_linux.c`
  (namespace `Insights` below): records are created and zero-initialized when
  an output global is announced, and each output listener carries a pointer to
  that output's own record as its data argument.

* `src/internal/collector/sysinfo/hardware/wayland_displays_linux.c`
  (namespace `Internal` below): output handles are appended when a global is
  announced, while records are created by geometry events; the mode handler
  writes to index `displays_count - 1`.

Machine-level effects that the claims depend on are modelled explicitly:
allocation calls (`malloc`/`realloc`) take an oracle boolean saying whether
the allocation succeeds, indeterminate `malloc` contents are supplied by the
event (the C code of the `Internal` variant does not `memset` them), arrays
carry their allocated slot count so an out-of-bounds store is detectable, and
operations return `Option` with `none` marking undefined behaviour
(out-of-bounds store, use after free, double free).
-/

/-- `struct wayland_display` from `wayland_displays_linux.h`: the fields are
`int32_t` on the wire; no arithmetic is ever performed on them, so they are
modelled as integers. -/
structure wayland_display where
  width : Int
  height : Int
  refresh : Int
  phys_width : Int
  phys_height : Int
deriving Repr, DecidableEq

/-- `WL_OUTPUT_MODE_CURRENT` from the Wayland protocol (`enum wl_output_mode`,
value `0x1`): the bit tested by both `handle_mode` implementations. -/
def WL_OUTPUT_MODE_CURRENT : Nat := 1

/-- A record with every field zero, as produced by
`memset(display, 0, sizeof(struct wayland_display))`. -/
def zeroRecord : wayland_display :=
  { width := 0, height := 0, refresh := 0, phys_width := 0, phys_height := 0 }

/-- The two field assignments performed by the geometry handlers:
`info->phys_width = physical_width; info->phys_height = physical_height;`. -/
def setPhys (d : wayland_display) (physical_width physical_height : Int) :
    wayland_display :=
  { d with phys_width := physical_width, phys_height := physical_height }

/-- The three field assignments performed by the mode handlers:
`info->width = width; info->height = height; info->refresh = refresh;`. -/
def setMode (d : wayland_display) (width height refresh : Int) :
    wayland_display :=
  { d with width := width, height := height, refresh := refresh }

/-- The three fields written only by a current-mode event. -/
def modeFields (d : wayland_display) : Int × Int × Int :=
  (d.width, d.height, d.refresh)

/-- The kinds of event-queue synchronization calls `init_wayland` can make. -/
inductive SyncOp where
  | roundtrip
  | dispatch
deriving Repr, DecidableEq

namespace Internal

/-!
Embedding of `src/internal/collector/sysinfo/hardware/wayland_displays_linux.c`.

The static module state.  `displays_count` and `outputs_count` are the lengths
of the `displays` and `outputs` lists; `displays_alloc` / `outputs_alloc` are
the number of slots actually allocated for the corresponding C array (0 when
the pointer is NULL), while `displays_capacity` / `outputs_capacity` are the C
`_capacity` variables.  The two can disagree: the C code doubles `_capacity`
before learning whether `realloc` succeeded.
-/

/-- The static state of the `Internal` variant. -/
structure State where
  memory_error : Bool
  displays : List wayland_display
  displays_alloc : Nat
  displays_capacity : Nat
  outputs : List Nat
  outputs_alloc : Nat
  outputs_capacity : Nat
  display_connected : Bool
  registry_live : Bool
deriving Repr, DecidableEq

/-- The state of the static variables at program start (and after `cleanup`). -/
def initState : State :=
  { memory_error := false
    displays := []
    displays_alloc := 0
    displays_capacity := 4
    outputs := []
    outputs_alloc := 0
    outputs_capacity := 4
    display_connected := false
    registry_live := false }

/-- `handle_geometry` (Internal variant, lines 21-44): grows the `displays`
array if full (doubling `displays_capacity` before checking the `realloc`
result), then `malloc`s a record, sets only its `phys_width`/`phys_height`
(leaving `width`/`height`/`refresh` as whatever indeterminate contents
`malloc` returned, supplied here as `junkW`/`junkH`/`junkR`), and appends it.
`growOk`/`mallocOk` are the allocation oracle.  `none` models the undefined
behaviour of storing past the allocated slots of the array. -/
def handle_geometry (growOk mallocOk : Bool) (junkW junkH junkR : Int)
    (physical_width physical_height : Int) (s : State) : Option State :=
  let append (s : State) : Option State :=
    if mallocOk then
      let info : wayland_display :=
        { width := junkW, height := junkH, refresh := junkR
          phys_width := physical_width, phys_height := physical_height }
      if s.displays.length < s.displays_alloc then
        some { s with displays := s.displays ++ [info] }
      else
        none
    else
      some { s with memory_error := true }
  if s.displays.length ≥ s.displays_capacity then
    if growOk then
      append { s with displays_capacity := s.displays_capacity * 2
                      displays_alloc := s.displays_capacity * 2 }
    else
      some { s with displays_capacity := s.displays_capacity * 2
                    memory_error := true }
  else
    append s

/-- `handle_mode` (Internal variant, lines 46-54): when the event's flags carry
`WL_OUTPUT_MODE_CURRENT`, writes width/height/refresh into
`displays[displays_count - 1]`; `none` models the out-of-bounds access made
when `displays_count` is 0. -/
def handle_mode (flags : Nat) (width height refresh : Int) (s : State) :
    Option State :=
  if flags &&& WL_OUTPUT_MODE_CURRENT ≠ 0 then
    match s.displays[s.displays.length - 1]? with
    | none => none
    | some info =>
        some { s with
          displays := s.displays.set (s.displays.length - 1)
            (setMode info width height refresh) }
  else
    some s

/-- `global_handler` (Internal variant, lines 63-83): for a `wl_output`
global it binds a handle (modelled by the registry `name`), grows the
`outputs` array if full (again doubling `outputs_capacity` before checking
`realloc`), and appends the handle.  The listener is registered with NULL
data, so no data pointer is tracked. -/
def global_handler (growOk : Bool) (interface : String) (name : Nat)
    (s : State) : Option State :=
  if interface = "wl_output" then
    let append (s : State) : Option State :=
      if s.outputs.length < s.outputs_alloc then
        some { s with outputs := s.outputs ++ [name] }
      else
        none
    if s.outputs.length ≥ s.outputs_capacity then
      if growOk then
        append { s with outputs_capacity := s.outputs_capacity * 2
                        outputs_alloc := s.outputs_capacity * 2 }
      else
        some { s with outputs_capacity := s.outputs_capacity * 2
                      memory_error := true }
    else
      append s
  else
    some s

/-- `global_remove` (Internal variant, line 85): intentionally does nothing. -/
def global_remove (name : Nat) (s : State) : State := s

/-- An event delivered to this client while the queue is dispatched.  The
`Bool` and junk arguments are the allocation oracle for the handler that the
event invokes. -/
inductive Event where
  | global (growOk : Bool) (interface : String) (name : Nat)
  | global_remove (name : Nat)
  | geometry (growOk mallocOk : Bool) (junkW junkH junkR : Int)
      (physical_width physical_height : Int)
  | mode (flags : Nat) (width height refresh : Int)
deriving Repr, DecidableEq

/-- Dispatch one event to the registered handlers. -/
def step (e : Event) (s : State) : Option State :=
  match e with
  | Event.global growOk interface name => global_handler growOk interface name s
  | Event.global_remove name => some (global_remove name s)
  | Event.geometry growOk mallocOk jw jh jr pw ph =>
      handle_geometry growOk mallocOk jw jh jr pw ph s
  | Event.mode flags w h r => handle_mode flags w h r s

/-- Dispatch a list of events in order (the drain performed inside a
round-trip). -/
def runEvents : List Event → State → Option State
  | [], s => some s
  | e :: evs, s =>
      match step e s with
      | none => none
      | some s1 => runEvents evs s1

/-- `cleanup` (Internal variant, lines 121-150): destroys every bound handle,
frees both arrays, disconnects, and resets every static variable to its
initial value. -/
def cleanup (s : State) : State := initState

/-- The environment of one `init_wayland` call: whether the two initial
`malloc`s succeed, whether `wl_display_connect` succeeds, and the events
delivered by (plus the return value of) each synchronization call. -/
structure InitOracle where
  malloc_outputs_ok : Bool
  malloc_displays_ok : Bool
  connect_ok : Bool
  sync1_events : List Event
  sync1_ret : Int
  sync2_events : List Event
  sync2_ret : Int

/-- `init_wayland` (Internal variant, lines 92-119): allocates the two
arrays, connects, registers the registry listener, and round-trips the event
queue twice; the comment in the source says "Call twice to ensure we get all
the events".  The return values of both `wl_display_roundtrip` calls are
ignored.  The result is the C return value, the final state, and the trace of
synchronization calls performed. -/
def init_wayland (o : InitOracle) (s : State) :
    Option (Int × State × List SyncOp) :=
  if o.malloc_outputs_ok = false then
    some (-1, { s with memory_error := true }, [])
  else
    let s1 := { s with outputs_alloc := s.outputs_capacity }
    if o.malloc_displays_ok = false then
      some (-1, { s1 with outputs_alloc := 0, memory_error := true }, [])
    else
      let s2 := { s1 with displays_alloc := s1.displays_capacity }
      if o.connect_ok = false then
        some (-1, cleanup s2, [])
      else
        let s3 := { s2 with display_connected := true, registry_live := true }
        match runEvents o.sync1_events s3 with
        | none => none
        | some s4 =>
            match runEvents o.sync2_events s4 with
            | none => none
            | some s5 => some (0, s5, [SyncOp.roundtrip, SyncOp.roundtrip])

/-- `get_output_count` (Internal variant, line 154): returns
`displays_count`. -/
def get_output_count (s : State) : Nat := s.displays.length

/-- `had_memory_error` (Internal variant, line 155). -/
def had_memory_error (s : State) : Bool := s.memory_error

/-- `set_displays` test seam (Internal variant, lines 157-162). -/
def set_displays (recs : List wayland_display) (s : State) : State :=
  { cleanup s with
    displays := recs
    displays_alloc := recs.length
    displays_capacity := recs.length }

/-- `set_memory_error` test seam (Internal variant, line 164). -/
def set_memory_error (error : Bool) (s : State) : State :=
  { s with memory_error := error }

/-- An environment where both `malloc`s and the connection succeed and the two
round-trips deliver the given events and return the given values. -/
def mkOracle (evs1 evs2 : List Event) (ret1 ret2 : Int) : InitOracle :=
  { malloc_outputs_ok := true
    malloc_displays_ok := true
    connect_ok := true
    sync1_events := evs1
    sync1_ret := ret1
    sync2_events := evs2
    sync2_ret := ret2 }

/-- The state right after a successful `init_wayland` during which no event
arrived: both arrays allocated with 4 slots, connection and registry live. -/
def readyState : State :=
  { initState with
    displays_alloc := 4
    outputs_alloc := 4
    display_connected := true
    registry_live := true }

end Internal

namespace Insights

/-!
Embedding of
`src/insights/internal/collector/sysinfo/hardware/wayland_displays_linux.c`.

In this variant the two arrays hold pointers: `displays` holds pointers to
individually `malloc`ed records and `outputs` holds bound protocol handles.
The records live on a heap modelled as a list (the pointer to a record is its
index in that list, in allocation order) because a record stays reachable
through a listener's data pointer even if the `displays` array itself is
corrupted.  A C array is modelled with its allocation status: `null` (the
pointer is NULL), `live alloc elems` (allocated `alloc` slots of which the
first `elems.length` have been written), or `dangling` (the pointed-to block
has been freed but the static pointer still holds the stale address). -/

/-- Allocation status of one of the two pointer arrays. -/
inductive CArr (α : Type) where
  | null
  | live (alloc : Nat) (elems : List α)
  | dangling
deriving Repr, DecidableEq

/-- The written elements of an array (none if NULL or freed). -/
def CArr.elemsOf : CArr α → List α
  | CArr.null => []
  | CArr.live _ es => es
  | CArr.dangling => []

/-- Effect on an array of a successful `realloc(ptr, n * size)`:
`realloc(NULL, _)` behaves as `malloc`, otherwise the contents move to a block
of `n` slots. -/
def CArr.reallocOk : CArr α → Nat → CArr α
  | CArr.null, n => CArr.live n []
  | CArr.live _ es, n => CArr.live n es
  | CArr.dangling, n => CArr.dangling

/-- Effect on the static array pointer of `free(new_ptr)` in the failure
branch of `global_handler`: if this array's `realloc` had succeeded
(`ok = true`), `new_ptr` is the moved block, freeing it leaves the static
pointer dangling; if the `realloc` failed, `new_ptr` is NULL and the free is
a no-op, the original block surviving untouched. -/
def CArr.reallocFreed : CArr α → Bool → CArr α
  | a, false => a
  | CArr.null, true => CArr.null
  | CArr.live _ _, true => CArr.dangling
  | CArr.dangling, true => CArr.dangling

/-- The static state of the `Insights` variant.  `heap` is the set of records
`malloc`ed so far in allocation order; `displays` stores heap indices
(pointers to records); `outputs` stores bound handle values; `listeners` is
ghost state recording, in order, the data pointer (heap index) passed to each
`wl_output_add_listener` call. -/
structure State where
  memory_error : Bool
  heap : List wayland_display
  displays : CArr Nat
  outputs : CArr Nat
  count : Nat
  capacity : Nat
  display_connected : Bool
  registry_live : Bool
  listeners : List Nat
deriving Repr, DecidableEq

/-- The state of the static variables at program start (and after `cleanup`). -/
def initState : State :=
  { memory_error := false
    heap := []
    displays := CArr.null
    outputs := CArr.null
    count := 0
    capacity := 4
    display_connected := false
    registry_live := false
    listeners := [] }

/-- `handle_geometry` (Insights variant, lines 20-27): the data argument is
the pointer to this output's own record (a heap index); the handler writes
only `phys_width` and `phys_height` of that record.  `none` models a write
through an invalid data pointer, which a compositor-delivered event never
produces. -/
def handle_geometry (data : Nat) (physical_width physical_height : Int)
    (s : State) : Option State :=
  match s.heap[data]? with
  | none => none
  | some info =>
      some { s with
        heap := s.heap.set data (setPhys info physical_width physical_height) }

/-- `handle_mode` (Insights variant, lines 30-38): when the flags carry
`WL_OUTPUT_MODE_CURRENT`, writes width/height/refresh into the record the
data pointer designates; otherwise the event is discarded. -/
def handle_mode (data : Nat) (flags : Nat) (width height refresh : Int)
    (s : State) : Option State :=
  if flags &&& WL_OUTPUT_MODE_CURRENT ≠ 0 then
    match s.heap[data]? with
    | none => none
    | some info =>
        some { s with
          heap := s.heap.set data (setMode info width height refresh) }
  else
    some s

/-- The capacity-grow step of `global_handler` (Insights variant, lines
53-71).  `capacity` is doubled first; both `realloc` calls are then made
(oracle `okOut`, `okDisp`).  If either fails the code frees both returned
pointers — destroying the array whose `realloc` had succeeded — sets
`memory_error`, and returns early (`Sum.inl`); otherwise both arrays now have
the doubled allocation (`Sum.inr`).  `none` models `realloc` on an
already-freed block. -/
def grown? (okOut okDisp : Bool) (s : State) : Option (State ⊕ State) :=
  if s.count ≥ s.capacity then
    if s.outputs = CArr.dangling ∨ s.displays = CArr.dangling then
      none
    else
      let cap := s.capacity * 2
      if okOut && okDisp then
        some (Sum.inr { s with capacity := cap
                               outputs := s.outputs.reallocOk cap
                               displays := s.displays.reallocOk cap })
      else
        some (Sum.inl { s with capacity := cap
                               outputs := s.outputs.reallocFreed okOut
                               displays := s.displays.reallocFreed okDisp
                               memory_error := true })
  else
    some (Sum.inr s)

/-- The record-creation step of `global_handler` (Insights variant, lines
73-87): `malloc` a record (oracle `okRec`), zero it with `memset`, bind the
output handle, store the record pointer and the handle at index `count` of
the respective arrays, increment `count`, and attach the listener with the
record pointer as data.  `none` models a store past the allocated slots or
through a NULL/freed array. -/
def appendRecord (okRec : Bool) (name : Nat) (s : State) : Option State :=
  if okRec = false then
    some { s with memory_error := true }
  else
    match s.displays, s.outputs with
    | CArr.live dAlloc dEls, CArr.live oAlloc oEls =>
        if dEls.length = s.count ∧ oEls.length = s.count ∧
            s.count < dAlloc ∧ s.count < oAlloc then
          some { s with
            heap := s.heap ++ [zeroRecord]
            displays := CArr.live dAlloc (dEls ++ [s.heap.length])
            outputs := CArr.live oAlloc (oEls ++ [name])
            count := s.count + 1
            listeners := s.listeners ++ [s.heap.length] }
        else
          none
    | _, _ => none

/-- `global_handler` (Insights variant, lines 48-88): ignores globals other
than `wl_output`; otherwise grows the arrays if full, then creates and
registers the new output's record. -/
def global_handler (okOut okDisp okRec : Bool) (interface : String)
    (name : Nat) (s : State) : Option State :=
  if interface = "wl_output" then
    match grown? okOut okDisp s with
    | none => none
    | some (Sum.inl sFail) => some sFail
    | some (Sum.inr sGrown) => appendRecord okRec name sGrown
  else
    some s

/-- `global_remove` (Insights variant, line 90): intentionally does nothing. -/
def global_remove (name : Nat) (s : State) : State := s

/-- An event delivered to this client while the queue is dispatched.  The
`Bool` arguments are the allocation oracle; `data` of geometry/mode events is
the data pointer registered with the listener (a heap index). -/
inductive Event where
  | global (okOut okDisp okRec : Bool) (interface : String) (name : Nat)
  | global_remove (name : Nat)
  | geometry (data : Nat) (physical_width physical_height : Int)
  | mode (data : Nat) (flags : Nat) (width height refresh : Int)
deriving Repr, DecidableEq

/-- An event whose allocation oracle does not make exactly one of the two
`realloc` calls of a capacity grow fail (the corner in which the
`global_handler` failure branch frees the array whose `realloc` succeeded). -/
def Event.growConsistent : Event → Prop
  | Event.global okOut okDisp _ _ _ => okOut = okDisp
  | _ => True

/-- A mode event that carries the current-mode bit and targets the record at
heap index `i`. -/
def Event.currentModeFor (i : Nat) : Event → Prop
  | Event.mode data flags _ _ _ =>
      data = i ∧ flags &&& WL_OUTPUT_MODE_CURRENT ≠ 0
  | _ => False

/-- Dispatch one event to the registered handlers. -/
def step (e : Event) (s : State) : Option State :=
  match e with
  | Event.global okOut okDisp okRec interface name =>
      global_handler okOut okDisp okRec interface name s
  | Event.global_remove name => some (global_remove name s)
  | Event.geometry data pw ph => handle_geometry data pw ph s
  | Event.mode data flags w h r => handle_mode data flags w h r s

/-- Dispatch a list of events in order (the drain performed inside a
round-trip or dispatch call). -/
def runEvents : List Event → State → Option State
  | [], s => some s
  | e :: evs, s =>
      match step e s with
      | none => none
      | some s1 => runEvents evs s1

/-- Whether `cleanup` (Insights variant, lines 129-158) executes without
undefined behaviour on state `s`: its loops read the first `count` entries of
each array (the `outputs` loop is guarded by `if (outputs)`, the `displays`
free loop is not NULL-guarded) and both arrays are passed to `free`, which on
an already-freed (dangling) block is a double free. -/
def cleanupSafe (s : State) : Bool :=
  (match s.outputs with
   | CArr.null => true
   | CArr.live _ els => decide (s.count ≤ els.length)
   | CArr.dangling => false) &&
  (match s.displays with
   | CArr.null => decide (s.count = 0)
   | CArr.live _ els => decide (s.count ≤ els.length)
   | CArr.dangling => false)

/-- `cleanup` (Insights variant, lines 129-158): destroys the first `count`
bound handles, frees the `outputs` array, destroys the registry and the
connection, frees the first `count` records and the `displays` array, and
resets `count`, `capacity` and `memory_error` — leaving precisely the
initial state.  `none` marks the undefined cases listed at `cleanupSafe`. -/
def cleanup (s : State) : Option State :=
  if cleanupSafe s then some initState else none

/-- The environment of one `init_wayland` call: whether the two initial
`malloc`s succeed, whether `wl_display_connect` succeeds, and the events
delivered by (plus the return value of) each synchronization call. -/
structure InitOracle where
  malloc_outputs_ok : Bool
  malloc_displays_ok : Bool
  connect_ok : Bool
  sync1_events : List Event
  sync1_ret : Int
  sync2_events : List Event
  sync2_ret : Int

/-- `init_wayland` (Insights variant, lines 97-127): allocates the two
arrays (on failure frees both, sets `memory_error`, returns -1), connects (on
failure calls `cleanup` and returns -1), registers the registry listener,
then performs one `wl_display_roundtrip` followed by one
`wl_display_dispatch`; if either reports an error it calls `cleanup` and
returns -1, otherwise returns 0.  A synchronization call dispatches its
events before its return value is examined.  The result carries the C return
value, the final state, and the trace of synchronization calls performed. -/
def init_wayland (o : InitOracle) (s : State) :
    Option (Int × State × List SyncOp) :=
  if o.malloc_outputs_ok && o.malloc_displays_ok then
    let s1 := { s with outputs := CArr.live s.capacity []
                       displays := CArr.live s.capacity [] }
    if o.connect_ok then
      let s2 := { s1 with display_connected := true, registry_live := true }
      match runEvents o.sync1_events s2 with
      | none => none
      | some s3 =>
          if o.sync1_ret < 0 then
            (cleanup s3).map (fun c => (-1, c, [SyncOp.roundtrip]))
          else
            match runEvents o.sync2_events s3 with
            | none => none
            | some s4 =>
                if o.sync2_ret < 0 then
                  (cleanup s4).map
                    (fun c => (-1, c, [SyncOp.roundtrip, SyncOp.dispatch]))
                else
                  some (0, s4, [SyncOp.roundtrip, SyncOp.dispatch])
    else
      (cleanup s1).map (fun c => (-1, c, []))
  else
    some (-1, { s with outputs := CArr.null, displays := CArr.null
                       memory_error := true }, [])

/-- `get_displays` read through the caller's eyes: the first `count` record
pointers dereferenced in order (`none` if the array or a pointer is
invalid). -/
def get_displays (s : State) : Option (List wayland_display) :=
  match s.displays with
  | CArr.null => if s.count = 0 then some [] else none
  | CArr.live _ els =>
      if s.count ≤ els.length then
        (els.take s.count).mapM (fun p => s.heap[p]?)
      else
        none
  | CArr.dangling => none

/-- `get_output_count` (Insights variant, line 162). -/
def get_output_count (s : State) : Nat := s.count

/-- `had_memory_error` (Insights variant, line 163). -/
def had_memory_error (s : State) : Bool := s.memory_error

/-- `set_displays` test seam (Insights variant, lines 165-169). -/
def set_displays (recs : List wayland_display) (s : State) : Option State :=
  (cleanup s).map fun c =>
    { c with heap := recs
             displays := CArr.live recs.length (List.range recs.length)
             count := recs.length
             capacity := recs.length }

/-- `set_memory_error` test seam (Insights variant, line 171). -/
def set_memory_error (error : Bool) (s : State) : State :=
  { s with memory_error := error }

/-- An environment where both `malloc`s and the connection succeed and the two
synchronization calls deliver the given events and return the given values. -/
def mkOracle (evs1 evs2 : List Event) (ret1 ret2 : Int) : InitOracle :=
  { malloc_outputs_ok := true
    malloc_displays_ok := true
    connect_ok := true
    sync1_events := evs1
    sync1_ret := ret1
    sync2_events := evs2
    sync2_ret := ret2 }

/-- A session state of the Insights variant holding one discovered output:
one zero-initialized record on the heap, both arrays live with four slots,
and the output's listener registered with its record as data.  It is the
state `init_wayland` reaches when the drain announces a single `wl_output`
global (see `Insights.oneOutputState_reachable`). -/
def oneOutputState : State :=
  { memory_error := false
    heap := [zeroRecord]
    displays := CArr.live 4 [0]
    outputs := CArr.live 4 [5]
    count := 1
    capacity := 4
    display_connected := true
    registry_live := true
    listeners := [0] }

/-- `oneOutputState` after a geometry event reporting 600mm x 340mm. -/
def oneOutputStateGeo : State :=
  { oneOutputState with heap := [setPhys zeroRecord 600 340] }

/-- `oneOutputState` after a second `wl_output` global (name 9) is announced
with no allocation failure. -/
def twoOutputState : State :=
  { memory_error := false
    heap := [zeroRecord, zeroRecord]
    displays := CArr.live 4 [0, 1]
    outputs := CArr.live 4 [5, 9]
    count := 2
    capacity := 4
    display_connected := true
    registry_live := true
    listeners := [0, 1] }

/-- Four `wl_output` globals announced with no allocation failure: they fill
the accumulator to its initial capacity of 4. -/
def fourOutputsEvents : List Event :=
  [Event.global true true true "wl_output" 1,
   Event.global true true true "wl_output" 2,
   Event.global true true true "wl_output" 3,
   Event.global true true true "wl_output" 4]

/-- A fifth announced output whose capacity grow fails: both `realloc` calls
return NULL. -/
def failingFifthEvent : Event := Event.global false false true "wl_output" 5

/-- A fifth announced output where the `outputs` `realloc` succeeds but the
`displays` `realloc` fails (the mixed corner: the failure branch then frees
the moved `outputs` block). -/
def mixedFailFifthEvent : Event := Event.global true false true "wl_output" 5

/-- A sixth announced output, with no allocation failure of its own. -/
def sixthOutputEvent : Event := Event.global true true true "wl_output" 6

/-- An environment where both `malloc`s succeed but `wl_display_connect`
fails. -/
def connectFailOracle : InitOracle :=
  { malloc_outputs_ok := true
    malloc_displays_ok := true
    connect_ok := false
    sync1_events := []
    sync1_ret := 0
    sync2_events := []
    sync2_ret := 0 }

end Insights

/-- C9: a mode event whose flags do not include the current-mode bit leaves
the state — in particular the width, height and refresh of every accumulated
record — completely unchanged, in both variants of `handle_mode`. -/
theorem C9_noncurrent_mode_is_noop (flags : Nat)
    (hflags : flags &&& WL_OUTPUT_MODE_CURRENT = 0) :
    (∀ (data : Nat) (w h r : Int) (s : Insights.State),
        Insights.handle_mode data flags w h r s = some s) ∧
    (∀ (w h r : Int) (s : Internal.State),
        Internal.handle_mode flags w h r s = some s) := by
  constructor
  · intro data w h r s
    simp [Insights.handle_mode, hflags]
  · intro w h r s
    simp [Internal.handle_mode, hflags]

/-- Witness for C9 at the concrete non-current flags value 2
(`WL_OUTPUT_MODE_PREFERRED`). -/
theorem C9_noncurrent_mode_is_noop_witness :
    (2 : Nat) &&& WL_OUTPUT_MODE_CURRENT = 0 ∧
    Internal.handle_mode 2 1920 1080 60000 Internal.initState =
      some Internal.initState :=
  ⟨by decide,
   (C9_noncurrent_mode_is_noop 2 (by decide)).2 1920 1080 60000
     Internal.initState⟩

/-- C7 (amended): in the Internal variant every mode event carrying the
current-mode flag writes to the most recently created OutputRecord (index
`displays_count - 1`); under the precondition that at least one record has
been created the handler's record access is in bounds (it returns a state
rather than faulting), the last record receives the event's width, height and
refresh, and every earlier record is unchanged.  In the Insights variant a
current-mode event instead writes to the record its listener's data pointer
designates, which need not be the most recently created one (see the
counterexample). -/
theorem C7_current_mode_targets_most_recent
    (s : Internal.State) (flags : Nat) (w h r : Int)
    (hne : s.displays ≠ [])
    (hcur : flags &&& WL_OUTPUT_MODE_CURRENT ≠ 0) :
    ∃ s', Internal.handle_mode flags w h r s = some s' ∧
      s'.displays.length = s.displays.length ∧
      (∀ d, s.displays[s.displays.length - 1]? = some d →
        s'.displays[s.displays.length - 1]? = some (setMode d w h r)) ∧
      (∀ j, j + 1 < s.displays.length → s'.displays[j]? = s.displays[j]?) := by
  have hpos : 0 < s.displays.length := List.length_pos.mpr hne
  have hidx : s.displays.length - 1 < s.displays.length := by omega
  have hd0 : s.displays[s.displays.length - 1]? =
      some (s.displays.get ⟨s.displays.length - 1, hidx⟩) := by
    rw [List.getElem?_eq_getElem hidx]
    simp [List.get_eq_getElem]
  set d0 : wayland_display := s.displays.get ⟨s.displays.length - 1, hidx⟩
    with hd0def
  refine ⟨{ s with displays :=
      s.displays.set (s.displays.length - 1) (setMode d0 w h r) },
    ?_, ?_, ?_, ?_⟩
  · simp [Internal.handle_mode, hcur, hd0]
  · simp
  · intro d hd
    rw [hd0] at hd
    injection hd with hd
    subst hd
    simp [List.getElem?_set, hidx]
  · intro j hj
    rw [List.getElem?_set_ne (by omega)]

/-- Witness for C7 on a one-record accumulator. -/
theorem C7_current_mode_targets_most_recent_witness :
    (Internal.set_displays [zeroRecord] Internal.initState).displays ≠ [] ∧
    (1 : Nat) &&& WL_OUTPUT_MODE_CURRENT ≠ 0 ∧
    (∃ s', Internal.handle_mode 1 1920 1080 60000
        (Internal.set_displays [zeroRecord] Internal.initState) = some s' ∧
      s'.displays.length =
        (Internal.set_displays [zeroRecord] Internal.initState).displays.length ∧
      (∀ d, (Internal.set_displays [zeroRecord]
          Internal.initState).displays[(Internal.set_displays [zeroRecord]
            Internal.initState).displays.length - 1]? = some d →
        s'.displays[(Internal.set_displays [zeroRecord]
            Internal.initState).displays.length - 1]? =
          some (setMode d 1920 1080 60000)) ∧
      (∀ j, j + 1 < (Internal.set_displays [zeroRecord]
          Internal.initState).displays.length →
        s'.displays[j]? = (Internal.set_displays [zeroRecord]
          Internal.initState).displays[j]?)) :=
  ⟨by decide, by decide,
   C7_current_mode_targets_most_recent
     (Internal.set_displays [zeroRecord] Internal.initState) 1 1920 1080 60000
     (by decide) (by decide)⟩

/-- Sanity: `Insights.oneOutputState` is the state `init_wayland` reaches
from the initial state when the first round-trip announces one `wl_output`
global (registry name 5) and nothing fails. -/
theorem Insights.oneOutputState_reachable :
    Insights.init_wayland
        (Insights.mkOracle [Insights.Event.global true true true "wl_output" 5]
          [] 0 0)
        Insights.initState =
      some (0, Insights.oneOutputState, [SyncOp.roundtrip, SyncOp.dispatch]) :=
  by decide

/-- Composing the geometry handler's field update twice keeps the later
values. -/
theorem setPhys_setPhys (d : wayland_display) (a b c e : Int) :
    setPhys (setPhys d a b) c e = setPhys d c e := rfl

/-- Equation for the Insights geometry handler at a valid data pointer. -/
theorem Insights.handle_geometry_eq (s : Insights.State) (i : Nat)
    (d : wayland_display) (pw ph : Int) (hd : s.heap[i]? = some d) :
    Insights.handle_geometry i pw ph s =
      some { s with heap := s.heap.set i (setPhys d pw ph) } := by
  simp [Insights.handle_geometry, hd]

/-- Equation for the Insights mode handler at a valid data pointer when the
current-mode bit is set. -/
theorem Insights.handle_mode_eq (s : Insights.State) (i : Nat)
    (flags : Nat) (w h r : Int) (hcur : flags &&& WL_OUTPUT_MODE_CURRENT ≠ 0)
    (d : wayland_display) (hd : s.heap[i]? = some d) :
    Insights.handle_mode i flags w h r s =
      some { s with heap := s.heap.set i (setMode d w h r) } := by
  simp [Insights.handle_mode, hcur, hd]

/-- A successful lookup is within bounds. -/
theorem aux_getElem?_lt {α : Type} (l : List α) (i : Nat) (d : α)
    (hd : l[i]? = some d) : i < l.length := by
  by_contra hcon
  push_neg at hcon
  rw [List.getElem?_eq_none hcon] at hd
  cases hd

/-- C8 (amended, Insights variant): a geometry event writes only the two
physical-size fields of the record its data pointer designates, and two
consecutive geometry events for the same output leave the later event's
physical dimensions as the final stored values — no record is created and
nothing else in the state changes. -/
theorem C8_geometry_last_write_wins (s : Insights.State) (i : Nat)
    (d : wayland_display) (pw1 ph1 pw2 ph2 : Int)
    (hd : s.heap[i]? = some d) :
    Insights.runEvents
        [Insights.Event.geometry i pw1 ph1, Insights.Event.geometry i pw2 ph2]
        s = some { s with heap := s.heap.set i (setPhys d pw2 ph2) } := by
  have hlen : i < s.heap.length := aux_getElem?_lt s.heap i d hd
  have h2 : ({ s with heap := s.heap.set i (setPhys d pw1 ph1) } :
      Insights.State).heap[i]? = some (setPhys d pw1 ph1) := by
    simp [List.getElem?_set, hlen]
  simp only [Insights.runEvents, Insights.step,
    Insights.handle_geometry_eq s i d pw1 ph1 hd,
    Insights.handle_geometry_eq _ i (setPhys d pw1 ph1) pw2 ph2 h2]
  simp [List.set_set, setPhys_setPhys]

/-- Witness for C8 on the one-output session state. -/
theorem C8_geometry_last_write_wins_witness :
    Insights.oneOutputState.heap[0]? = some zeroRecord ∧
    Insights.runEvents
        [Insights.Event.geometry 0 100 50, Insights.Event.geometry 0 600 340]
        Insights.oneOutputState =
      some { Insights.oneOutputState with
               heap := Insights.oneOutputState.heap.set 0
                 (setPhys zeroRecord 600 340) } :=
  ⟨by decide,
   C8_geometry_last_write_wins Insights.oneOutputState 0 zeroRecord
     100 50 600 340 (by decide)⟩

/-- Counterexample to C8 as stated: in the Internal variant
(`src/internal/.../wayland_displays_linux.c`), each geometry event allocates
and appends a brand-new record, so two consecutive geometry events for the
same discovered output leave TWO records — an additional record is created,
and the later event's dimensions do not overwrite the earlier record. -/
theorem C8_counterexample :
    (Internal.init_wayland
        (Internal.mkOracle [Internal.Event.global true "wl_output" 1]
          [Internal.Event.geometry true true 0 0 0 600 340,
           Internal.Event.geometry true true 0 0 0 610 350] 0 0)
        Internal.initState).map (fun x => x.2.1.displays) =
      some [{ width := 0, height := 0, refresh := 0
              phys_width := 600, phys_height := 340 },
            { width := 0, height := 0, refresh := 0
              phys_width := 610, phys_height := 350 }] :=
  by decide

/-- The written contents of an array survive a successful `realloc`. -/
theorem Insights.elemsOf_reallocOk {α : Type} (a : Insights.CArr α) (n : Nat)
    (hn : a ≠ Insights.CArr.dangling) :
    (a.reallocOk n).elemsOf = a.elemsOf := by
  cases a with
  | null => rfl
  | live alloc es => rfl
  | dangling => exact absurd rfl hn

/-- Freeing the result of a failed `realloc` is a no-op on the array. -/
theorem Insights.reallocFreed_false {α : Type} (a : Insights.CArr α) :
    a.reallocFreed false = a := by
  cases a <;> rfl

/-- If the grow step takes its early-return branch, both reallocations were
attempted and at least one failed. -/
theorem Insights.grown?_inl (okOut okDisp : Bool) (s t : Insights.State)
    (h : Insights.grown? okOut okDisp s = some (Sum.inl t)) :
    (okOut && okDisp) = false ∧ t.memory_error = true ∧
    t.heap = s.heap ∧ t.listeners = s.listeners ∧ t.count = s.count ∧
    (okOut = okDisp →
      t.displays = s.displays ∧ t.outputs = s.outputs) := by
  unfold Insights.grown? at h
  split at h
  · split at h
    · cases h
    · split at h
      · simp at h
      · rename_i hok
        injection h with h
        cases h
        refine ⟨by simpa using hok, rfl, rfl, rfl, rfl, ?_⟩
        intro heq
        subst heq
        cases okOut
        · exact ⟨Insights.reallocFreed_false s.displays,
                 Insights.reallocFreed_false s.outputs⟩
        · simp at hok
  · injection h with h
    cases h

/-- On the continuing branch of the grow step nothing observable changes. -/
theorem Insights.grown?_inr (okOut okDisp : Bool) (s t : Insights.State)
    (h : Insights.grown? okOut okDisp s = some (Sum.inr t)) :
    t.heap = s.heap ∧ t.listeners = s.listeners ∧
    Insights.CArr.elemsOf t.displays = Insights.CArr.elemsOf s.displays ∧
    Insights.CArr.elemsOf t.outputs = Insights.CArr.elemsOf s.outputs ∧
    t.count = s.count ∧ t.memory_error = s.memory_error := by
  unfold Insights.grown? at h
  split at h
  · rename_i hge
    split at h
    · cases h
    · rename_i hdang
      push_neg at hdang
      split at h
      · injection h with h
        cases h
        refine ⟨rfl, rfl, ?_, ?_, rfl, rfl⟩
        · exact Insights.elemsOf_reallocOk s.displays (s.capacity * 2) hdang.2
        · exact Insights.elemsOf_reallocOk s.outputs (s.capacity * 2) hdang.1
      · cases h
  · injection h with h
    cases h
    exact ⟨rfl, rfl, rfl, rfl, rfl, rfl⟩

/-- What a successful `appendRecord` call did: either the record `malloc`
failed and only the sticky flag was set, or a zeroed record was appended to
the heap, its pointer and the bound handle were stored in the arrays, and the
listener was registered with that record as data. -/
theorem Insights.appendRecord_some (okRec : Bool) (name : Nat)
    (s t : Insights.State) (h : Insights.appendRecord okRec name s = some t) :
    (okRec = false ∧ t = { s with memory_error := true }) ∨
    (okRec = true ∧
      t.heap = s.heap ++ [zeroRecord] ∧
      t.listeners = s.listeners ++ [s.heap.length] ∧
      Insights.CArr.elemsOf t.displays =
        Insights.CArr.elemsOf s.displays ++ [s.heap.length] ∧
      Insights.CArr.elemsOf t.outputs =
        Insights.CArr.elemsOf s.outputs ++ [name] ∧
      t.count = s.count + 1 ∧ t.memory_error = s.memory_error) := by
  unfold Insights.appendRecord at h
  split at h
  · left
    refine ⟨by assumption, ?_⟩
    injection h with h
    exact h.symm
  · right
    rename_i hok
    refine ⟨by revert hok; cases okRec <;> simp, ?_⟩
    split at h
    · rename_i dAlloc dEls oAlloc oEls heqd heqo
      split at h
      · injection h with h
        cases h
        simp_all [Insights.CArr.elemsOf]
      · cases h
    · cases h

/-- C10: in the Insights variant the listener attached to each bound output
carries a pointer to that output's own record as its data argument (the
record appended for it, heap index `s.heap.length`), and a geometry or mode
event for one output (data pointer `i`) modifies only record `i`: every
record `j ≠ i` is left unchanged, whatever the interleaving of events from
different outputs. -/
theorem C10_listener_isolates_records (s : Insights.State) :
    (∀ name t,
        Insights.global_handler true true true "wl_output" name s = some t →
        t.listeners = s.listeners ++ [s.heap.length] ∧
        Insights.CArr.elemsOf t.displays =
          Insights.CArr.elemsOf s.displays ++ [s.heap.length]) ∧
    (∀ i j pw ph t, i ≠ j → Insights.handle_geometry i pw ph s = some t →
        t.heap[j]? = s.heap[j]?) ∧
    (∀ i j flags w h r t, i ≠ j →
        Insights.handle_mode i flags w h r s = some t →
        t.heap[j]? = s.heap[j]?) := by
  refine ⟨?_, ?_, ?_⟩
  · intro name t hrun
    unfold Insights.global_handler at hrun
    rw [if_pos rfl] at hrun
    cases hg : Insights.grown? true true s with
    | none => rw [hg] at hrun; cases hrun
    | some x =>
      rw [hg] at hrun
      cases x with
      | inl sF =>
          have hx := Insights.grown?_inl true true s sF hg
          simp at hx
      | inr sG =>
          have hG := Insights.grown?_inr true true s sG hg
          have hA := Insights.appendRecord_some true name sG t hrun
          rcases hA with ⟨hfalse, _⟩ | ⟨_, _, hl, hde, _, _, _⟩
          · cases hfalse
          · constructor
            · rw [hl, hG.1, hG.2.1]
            · rw [hde, hG.1, hG.2.2.1]
  · intro i j pw ph t hij hrun
    unfold Insights.handle_geometry at hrun
    split at hrun
    · cases hrun
    · injection hrun with hrun
      subst hrun
      exact List.getElem?_set_ne hij
  · intro i j flags w h r t hij hrun
    unfold Insights.handle_mode at hrun
    split at hrun
    · split at hrun
      · cases hrun
      · injection hrun with hrun
        subst hrun
        exact List.getElem?_set_ne hij
    · injection hrun with hrun
      subst hrun
      rfl

/-- Witness for C10: a geometry event for output 0 in the one-output session
leaves the (absent) record 1 untouched. -/
theorem C10_listener_isolates_records_witness :
    (0 : Nat) ≠ 1 ∧
    Insights.handle_geometry 0 600 340 Insights.oneOutputState =
      some Insights.oneOutputStateGeo ∧
    Insights.oneOutputStateGeo.heap[1]? = Insights.oneOutputState.heap[1]? :=
  ⟨by decide, by decide,
   (C10_listener_isolates_records Insights.oneOutputState).2.1 0 1 600 340
     Insights.oneOutputStateGeo (by decide) (by decide)⟩

/-- C2 (amended, Insights variant): every handler invocation that does not
hit the mixed reallocation-failure corner (exactly one of the two grow
`realloc`s failing, in which case the code frees the surviving array) either
appends one element to both the record sequence and the bound-handle
sequence, or appends to neither; hence the two sequences keep identical
length. -/
theorem C2_sequences_grow_together (e : Insights.Event)
    (s t : Insights.State) (hc : Insights.Event.growConsistent e)
    (h : Insights.step e s = some t) :
    ((Insights.CArr.elemsOf t.displays).length =
        (Insights.CArr.elemsOf s.displays).length + 1 ∧
      (Insights.CArr.elemsOf t.outputs).length =
        (Insights.CArr.elemsOf s.outputs).length + 1) ∨
    ((Insights.CArr.elemsOf t.displays).length =
        (Insights.CArr.elemsOf s.displays).length ∧
      (Insights.CArr.elemsOf t.outputs).length =
        (Insights.CArr.elemsOf s.outputs).length) := by
  cases e with
  | global okOut okDisp okRec interface name =>
      simp only [Insights.step] at h
      unfold Insights.global_handler at h
      split at h
      · cases hg : Insights.grown? okOut okDisp s with
        | none => rw [hg] at h; cases h
        | some x =>
          rw [hg] at h
          cases x with
          | inl sF =>
              injection h with h
              subst h
              obtain ⟨-, -, -, -, -, harr⟩ :=
                Insights.grown?_inl okOut okDisp s sF hg
              obtain ⟨hd, ho⟩ := harr hc
              right
              rw [hd, ho]
              exact ⟨rfl, rfl⟩
          | inr sG =>
              obtain ⟨-, -, hde, hoe, -, -⟩ :=
                Insights.grown?_inr okOut okDisp s sG hg
              rcases Insights.appendRecord_some okRec name sG t h with
                ⟨-, ht⟩ | ⟨-, -, -, hde', hoe', -, -⟩
              · subst ht
                right
                rw [hde, hoe]
                exact ⟨rfl, rfl⟩
              · left
                rw [hde', hoe', hde, hoe]
                simp
      · injection h with h
        subst h
        right
        exact ⟨rfl, rfl⟩
  | global_remove name =>
      simp only [Insights.step, Insights.global_remove] at h
      injection h with h
      subst h
      right
      exact ⟨rfl, rfl⟩
  | geometry data pw ph =>
      simp only [Insights.step] at h
      unfold Insights.handle_geometry at h
      split at h
      · cases h
      · injection h with h
        subst h
        right
        exact ⟨rfl, rfl⟩
  | mode data flags w ht r =>
      simp only [Insights.step] at h
      unfold Insights.handle_mode at h
      split at h
      · split at h
        · cases h
        · injection h with h
          subst h
          right
          exact ⟨rfl, rfl⟩
      · injection h with h
        subst h
        right
        exact ⟨rfl, rfl⟩

/-- Witness for C2: announcing a second output appends to both sequences. -/
theorem C2_sequences_grow_together_witness :
    Insights.Event.growConsistent
      (Insights.Event.global true true true "wl_output" 9) ∧
    Insights.step (Insights.Event.global true true true "wl_output" 9)
      Insights.oneOutputState = some Insights.twoOutputState ∧
    (((Insights.CArr.elemsOf Insights.twoOutputState.displays).length =
        (Insights.CArr.elemsOf Insights.oneOutputState.displays).length + 1 ∧
      (Insights.CArr.elemsOf Insights.twoOutputState.outputs).length =
        (Insights.CArr.elemsOf Insights.oneOutputState.outputs).length + 1) ∨
    ((Insights.CArr.elemsOf Insights.twoOutputState.displays).length =
        (Insights.CArr.elemsOf Insights.oneOutputState.displays).length ∧
      (Insights.CArr.elemsOf Insights.twoOutputState.outputs).length =
        (Insights.CArr.elemsOf Insights.oneOutputState.outputs).length)) :=
  ⟨rfl, by decide,
   C2_sequences_grow_together
     (Insights.Event.global true true true "wl_output" 9)
     Insights.oneOutputState Insights.twoOutputState rfl (by decide)⟩

/-- Counterexample to C2 as stated: in the Internal variant announcing a
`wl_output` global appends a bound handle but no record (records are only
appended later, by geometry events), so immediately after the announce the
two sequences have different lengths (1 handle, 0 records). -/
theorem C2_counterexample :
    (Internal.init_wayland
        (Internal.mkOracle [Internal.Event.global true "wl_output" 1] [] 0 0)
        Internal.initState).map
      (fun x => (x.2.1.outputs.length, x.2.1.displays.length)) =
      some (1, 0) :=
  by decide

/-- The geometry handler's update leaves the mode fields untouched. -/
theorem modeFields_setPhys (d : wayland_display) (a b : Int) :
    modeFields (setPhys d a b) = modeFields d := rfl

/-- Mode-field clauses for a step that leaves the heap unchanged. -/
theorem aux_same_heap (l : List wayland_display) (i : Nat) :
    l.length ≤ l.length ∧
    (∀ d, l[i]? = some d → ∃ d', l[i]? = some d' ∧
        modeFields d' = modeFields d) ∧
    (l.length ≤ i → ∀ d', l[i]? = some d' →
        modeFields d' = modeFields zeroRecord) := by
  refine ⟨le_refl _, fun d hd => ⟨d, hd, rfl⟩, fun hle d' hd' => ?_⟩
  rw [List.getElem?_eq_none hle] at hd'
  cases hd'

/-- Mode-field clauses for a step that overwrites the record at index `j`
with a value preserving its mode fields whenever `j = i`. -/
theorem aux_set_heap (l : List wayland_display) (i j : Nat)
    (info v : wayland_display) (hj : l[j]? = some info)
    (hv : j = i → modeFields v = modeFields info) :
    l.length ≤ (l.set j v).length ∧
    (∀ d, l[i]? = some d → ∃ d', (l.set j v)[i]? = some d' ∧
        modeFields d' = modeFields d) ∧
    (l.length ≤ i → ∀ d', (l.set j v)[i]? = some d' →
        modeFields d' = modeFields zeroRecord) := by
  have hjlt : j < l.length := aux_getElem?_lt l j info hj
  refine ⟨by simp, ?_, ?_⟩
  · intro d hd
    by_cases hji : j = i
    · subst hji
      rw [hj] at hd
      injection hd with hd
      subst hd
      exact ⟨v, by simp [List.getElem?_set, hjlt], hv rfl⟩
    · exact ⟨d, by rw [List.getElem?_set_ne hji]; exact hd, rfl⟩
  · intro hle d' hd'
    have hnone : (l.set j v)[i]? = none :=
      List.getElem?_eq_none (by simpa using hle)
    rw [hnone] at hd'
    cases hd'

/-- Mode-field clauses for a step that appends the zeroed record. -/
theorem aux_append_zero_heap (l : List wayland_display) (i : Nat) :
    l.length ≤ (l ++ [zeroRecord]).length ∧
    (∀ d, l[i]? = some d → ∃ d', (l ++ [zeroRecord])[i]? = some d' ∧
        modeFields d' = modeFields d) ∧
    (l.length ≤ i → ∀ d', (l ++ [zeroRecord])[i]? = some d' →
        modeFields d' = modeFields zeroRecord) := by
  refine ⟨by simp, ?_, ?_⟩
  · intro d hd
    have hlt : i < l.length := aux_getElem?_lt l i d hd
    refine ⟨d, ?_, rfl⟩
    rw [List.getElem?_append, if_pos hlt]
    exact hd
  · intro hle d' hd'
    rw [List.getElem?_append, if_neg (by omega)] at hd'
    rcases Nat.lt_or_ge (i - l.length) 1 with hl | hl
    · have h0 : i - l.length = 0 := by omega
      rw [h0] at hd'
      injection hd' with hd'
      subst hd'
      rfl
    · rw [List.getElem?_eq_none (by simpa using hl)] at hd'
      cases hd'

/-- Effect of one dispatched event on the mode fields of the record at heap
index `i`, when the event is not a current-mode event for `i`: the heap only
grows, an existing record keeps its mode fields, and any record appearing at
an index that did not exist before has zeroed mode fields. -/
theorem Insights.step_mode_fields (e : Insights.Event)
    (s t : Insights.State) (i : Nat)
    (hni : ¬ Insights.Event.currentModeFor i e)
    (h : Insights.step e s = some t) :
    s.heap.length ≤ t.heap.length ∧
    (∀ d, s.heap[i]? = some d → ∃ d', t.heap[i]? = some d' ∧
        modeFields d' = modeFields d) ∧
    (s.heap.length ≤ i → ∀ d', t.heap[i]? = some d' →
        modeFields d' = modeFields zeroRecord) := by
  cases e with
  | global okOut okDisp okRec interface name =>
      simp only [Insights.step] at h
      unfold Insights.global_handler at h
      split at h
      · cases hg : Insights.grown? okOut okDisp s with
        | none => rw [hg] at h; cases h
        | some x =>
          rw [hg] at h
          cases x with
          | inl sF =>
              injection h with h
              subst h
              obtain ⟨-, -, hh, -, -, -⟩ :=
                Insights.grown?_inl okOut okDisp s sF hg
              rw [hh]
              exact aux_same_heap s.heap i
          | inr sG =>
              obtain ⟨hGh, -, -, -, -, -⟩ :=
                Insights.grown?_inr okOut okDisp s sG hg
              rcases Insights.appendRecord_some okRec name sG t h with
                ⟨-, ht⟩ | ⟨-, hth, -, -, -, -, -⟩
              · subst ht
                rw [hGh]
                exact aux_same_heap s.heap i
              · rw [hGh] at hth
                rw [hth]
                exact aux_append_zero_heap s.heap i
      · injection h with h
        subst h
        exact aux_same_heap s.heap i
  | global_remove name =>
      simp only [Insights.step, Insights.global_remove] at h
      injection h with h
      subst h
      exact aux_same_heap s.heap i
  | geometry data pw ph =>
      simp only [Insights.step] at h
      unfold Insights.handle_geometry at h
      split at h
      · cases h
      · rename_i info heq
        injection h with h
        subst h
        exact aux_set_heap s.heap i data info (setPhys info pw ph) heq
          (fun hji => modeFields_setPhys info pw ph)
  | mode data flags w ht r =>
      simp only [Insights.step] at h
      unfold Insights.handle_mode at h
      split at h
      · rename_i hcur
        split at h
        · cases h
        · rename_i info heq
          injection h with h
          subst h
          refine aux_set_heap s.heap i data info (setMode info w ht r) heq
            (fun hji => ?_)
          exfalso
          exact hni ⟨hji, hcur⟩
      · injection h with h
        subst h
        exact aux_same_heap s.heap i

/-- C3 (amended, Insights variant): records come into existence only through
the announce handler, which appends the zero-initialized record (`memset`);
and along any dispatched event sequence containing no current-mode event for
heap index `i`, an existing record at `i` keeps its width/height/refresh
while any record appearing at a previously non-existent index `i` has
width = height = refresh = 0.  In the Internal variant records are instead
created by geometry events with `malloc`-indeterminate mode fields (see the
counterexample). -/
theorem C3_records_zero_until_current_mode :
    (∀ (e : Insights.Event) (s t : Insights.State),
        Insights.step e s = some t →
        t.heap.length = s.heap.length ∨ t.heap = s.heap ++ [zeroRecord]) ∧
    (∀ (evs : List Insights.Event) (s t : Insights.State) (i : Nat),
        Insights.runEvents evs s = some t →
        (∀ e ∈ evs, ¬ Insights.Event.currentModeFor i e) →
        (∀ d, s.heap[i]? = some d → ∃ d', t.heap[i]? = some d' ∧
            modeFields d' = modeFields d) ∧
        (s.heap.length ≤ i → ∀ d', t.heap[i]? = some d' →
            modeFields d' = modeFields zeroRecord)) := by
  constructor
  · intro e s t h
    cases e with
    | global okOut okDisp okRec interface name =>
        simp only [Insights.step] at h
        unfold Insights.global_handler at h
        split at h
        · cases hg : Insights.grown? okOut okDisp s with
          | none => rw [hg] at h; cases h
          | some x =>
            rw [hg] at h
            cases x with
            | inl sF =>
                injection h with h
                subst h
                obtain ⟨-, -, hh, -, -, -⟩ :=
                  Insights.grown?_inl okOut okDisp s sF hg
                left
                rw [hh]
            | inr sG =>
                obtain ⟨hGh, -, -, -, -, -⟩ :=
                  Insights.grown?_inr okOut okDisp s sG hg
                rcases Insights.appendRecord_some okRec name sG t h with
                  ⟨-, ht⟩ | ⟨-, hth, -, -, -, -, -⟩
                · subst ht
                  left
                  rw [hGh]
                · right
                  rw [hth, hGh]
        · injection h with h
          subst h
          left
          rfl
    | global_remove name =>
        simp only [Insights.step, Insights.global_remove] at h
        injection h with h
        subst h
        left
        rfl
    | geometry data pw ph =>
        simp only [Insights.step] at h
        unfold Insights.handle_geometry at h
        split at h
        · cases h
        · injection h with h
          subst h
          left
          simp
    | mode data flags w ht r =>
        simp only [Insights.step] at h
        unfold Insights.handle_mode at h
        split at h
        · split at h
          · cases h
          · injection h with h
            subst h
            left
            simp
        · injection h with h
          subst h
          left
          rfl
  · intro evs
    induction evs with
    | nil =>
        intro s t i h hni
        unfold Insights.runEvents at h
        injection h with h
        subst h
        exact (aux_same_heap s.heap i).2
    | cons e evs ih =>
        intro s t i h hni
        unfold Insights.runEvents at h
        cases hstep : Insights.step e s with
        | none => rw [hstep] at h; cases h
        | some s1 =>
            rw [hstep] at h
            have hs := Insights.step_mode_fields e s s1 i
              (hni e (by simp)) hstep
            have hr := ih s1 t i h (fun e' he' => hni e' (by simp [he']))
            constructor
            · intro d hd
              obtain ⟨d1, hd1, hm1⟩ := hs.2.1 d hd
              obtain ⟨d', hd', hm'⟩ := hr.1 d1 hd1
              exact ⟨d', hd', by rw [hm', hm1]⟩
            · intro hle d' hd'
              rcases Nat.lt_or_ge i s1.heap.length with hlt | hge
              · have hd1 : s1.heap[i]? = some (s1.heap.get ⟨i, hlt⟩) := by
                  rw [List.getElem?_eq_getElem hlt]
                  simp [List.get_eq_getElem]
                have hz := hs.2.2 hle _ hd1
                obtain ⟨d2, hd2, hm2⟩ := hr.1 _ hd1
                rw [hd'] at hd2
                injection hd2 with hd2
                rw [hd2, hm2, hz]
              · exact hr.2 hge d' hd'

/-- Witness for C3: from the one-output session, a geometry event and a
non-current mode event leave record 0 with zeroed mode fields. -/
theorem C3_records_zero_until_current_mode_witness :
    Insights.runEvents
        [Insights.Event.geometry 0 600 340, Insights.Event.mode 0 2 777 888 999]
        Insights.oneOutputState = some Insights.oneOutputStateGeo ∧
    ((∀ d, Insights.oneOutputState.heap[0]? = some d →
        ∃ d', Insights.oneOutputStateGeo.heap[0]? = some d' ∧
          modeFields d' = modeFields d) ∧
     (Insights.oneOutputState.heap.length ≤ 0 →
        ∀ d', Insights.oneOutputStateGeo.heap[0]? = some d' →
          modeFields d' = modeFields zeroRecord)) := by
  have hni : ∀ e ∈ [Insights.Event.geometry 0 600 340,
      Insights.Event.mode 0 2 777 888 999],
      ¬ Insights.Event.currentModeFor 0 e := by
    intro e he
    simp only [List.mem_cons, List.not_mem_nil, or_false] at he
    rcases he with rfl | rfl
    · simp [Insights.Event.currentModeFor]
    · simp [Insights.Event.currentModeFor]
      decide
  refine ⟨by decide, ?_⟩
  exact C3_records_zero_until_current_mode.2
    [Insights.Event.geometry 0 600 340, Insights.Event.mode 0 2 777 888 999]
    Insights.oneOutputState Insights.oneOutputStateGeo 0 (by decide) hni

/-- Counterexample to C3 as stated: in the Internal variant no record exists
after the `wl_output` global is announced (creation happens only at the
first geometry event), and the record the geometry event creates carries
whatever `malloc` returned in its width/height/refresh (modelled by the junk
values 7, 8, 9) — it is not zero-initialized, with no current-mode event ever
dispatched. -/
theorem C3_counterexample :
    (Internal.init_wayland
        (Internal.mkOracle [Internal.Event.global true "wl_output" 1] [] 0 0)
        Internal.initState).map (fun x => x.2.1.displays.length) = some 0 ∧
    (Internal.init_wayland
        (Internal.mkOracle [Internal.Event.global true "wl_output" 1]
          [Internal.Event.geometry true true 7 8 9 600 340] 0 0)
        Internal.initState).map (fun x => x.2.1.displays) =
      some [{ width := 7, height := 8, refresh := 9
              phys_width := 600, phys_height := 340 }] :=
  ⟨by decide, by decide⟩

/-- Whenever `cleanup` executes without undefined behaviour, the resulting
state is the initial one. -/
theorem Insights.cleanup_some (s c : Insights.State)
    (h : Insights.cleanup s = some c) : c = Insights.initState := by
  unfold Insights.cleanup at h
  split at h
  · injection h with h
    exact h.symm
  · cases h

/-- C5: whenever `cleanup` runs (on any state on which it executes without
undefined behaviour) it leaves the session in its initial state — arrays and
handles released and nulled, `count` 0, `capacity` 4, `memory_error` false,
including when the flag was set through the test seam, which never affects
whether cleanup is safe — and a second `cleanup` in succession also succeeds
and leaves the state identical to the first call's result. -/
theorem C5_cleanup_resets_state (s c : Insights.State)
    (h : Insights.cleanup s = some c) :
    c = Insights.initState ∧
    Insights.cleanup c = some c ∧
    Insights.cleanup (Insights.set_memory_error true s) = some c ∧
    Insights.get_output_count c = 0 ∧ c.capacity = 4 ∧
    Insights.had_memory_error c = false ∧ c.heap = [] ∧
    c.displays = Insights.CArr.null ∧ c.outputs = Insights.CArr.null ∧
    c.display_connected = false ∧ c.registry_live = false := by
  have hc := Insights.cleanup_some s c h
  subst hc
  refine ⟨rfl, by decide, ?_, rfl, rfl, rfl, rfl, rfl, rfl, rfl, rfl⟩
  calc Insights.cleanup (Insights.set_memory_error true s)
      = Insights.cleanup s := rfl
    _ = some Insights.initState := h

/-- Witness for C5 on the one-output session state. -/
theorem C5_cleanup_resets_state_witness :
    Insights.cleanup Insights.oneOutputState = some Insights.initState ∧
    Insights.initState = Insights.initState ∧
    Insights.cleanup Insights.initState = some Insights.initState ∧
    Insights.cleanup (Insights.set_memory_error true Insights.oneOutputState) =
      some Insights.initState ∧
    Insights.get_output_count Insights.initState = 0 ∧
    Insights.initState.capacity = 4 ∧
    Insights.had_memory_error Insights.initState = false ∧
    Insights.initState.heap = ([] : List wayland_display) ∧
    Insights.initState.displays = Insights.CArr.null ∧
    Insights.initState.outputs = Insights.CArr.null ∧
    Insights.initState.display_connected = false ∧
    Insights.initState.registry_live = false := by
  have h : Insights.cleanup Insights.oneOutputState =
      some Insights.initState := by decide
  have hmain := C5_cleanup_resets_state Insights.oneOutputState
    Insights.initState h
  exact ⟨h, hmain.1, hmain.2.1, hmain.2.2.1, hmain.2.2.2.1, hmain.2.2.2.2.1,
    hmain.2.2.2.2.2.1, hmain.2.2.2.2.2.2.1, hmain.2.2.2.2.2.2.2.1,
    hmain.2.2.2.2.2.2.2.2.1, hmain.2.2.2.2.2.2.2.2.2.1,
    hmain.2.2.2.2.2.2.2.2.2.2⟩

/-- C6 (amended): when `wl_display_connect` fails (the two initial `malloc`s
having succeeded), `init_wayland` aborts enumeration and returns -1 with the
state reset to the initial one: the accumulator stays empty (`count` 0, no
records) and `memory_error` is false afterwards — equal to its value before
the call whenever that value was false, but reset (not left untouched) if
the flag had been set, e.g. through the test seam (see the
counterexample). -/
theorem C6_connect_failure_resets (o : Insights.InitOracle)
    (s : Insights.State) (hmo : o.malloc_outputs_ok = true)
    (hmd : o.malloc_displays_ok = true) (hco : o.connect_ok = false)
    (hcount : s.count = 0) :
    Insights.init_wayland o s = some (-1, Insights.initState, []) := by
  unfold Insights.init_wayland
  rw [hmo, hmd, hco]
  simp [Insights.cleanup, Insights.cleanupSafe, hcount]

/-- Witness for C6: connection failure from the initial state. -/
theorem C6_connect_failure_resets_witness :
    Insights.connectFailOracle.malloc_outputs_ok = true ∧
    Insights.connectFailOracle.malloc_displays_ok = true ∧
    Insights.connectFailOracle.connect_ok = false ∧
    Insights.initState.count = 0 ∧
    Insights.init_wayland Insights.connectFailOracle Insights.initState =
      some (-1, Insights.initState, []) :=
  ⟨rfl, rfl, rfl, rfl,
   C6_connect_failure_resets Insights.connectFailOracle Insights.initState
     rfl rfl rfl rfl⟩

/-- Counterexample to C6 as stated: set the sticky flag through the test
seam, then call `init_wayland` with the connection failing — the claim says
`memory_error` is left at whatever value it had before the call (true), but
the `cleanup` performed on the failure path resets it to false. -/
theorem C6_counterexample :
    Insights.had_memory_error
      (Insights.set_memory_error true Insights.initState) = true ∧
    (Insights.init_wayland Insights.connectFailOracle
        (Insights.set_memory_error true Insights.initState)).map
      (fun x => (x.1, Insights.had_memory_error x.2.1)) = some (-1, false) :=
  ⟨rfl, by decide⟩

/-- C1 (amended): after registering the registry listener the Insights
variant's `init_wayland` performs one round-trip followed by one dispatch of
the event queue (two synchronization calls, not two round-trips); if either
reports an error it performs full cleanup — discarding any partially
collected records — and returns -1 (after a first-synchronization failure
only that one call has been made); if both succeed it returns 0.  The
Internal variant performs exactly two round-trips but ignores their return
values: whenever it gets past connecting it returns 0 and tears nothing
down, even if a round-trip reported an error (see the counterexample). -/
theorem C1_two_sync_calls_and_errors :
    (∀ (o : Insights.InitOracle) (s : Insights.State) (res : Int)
        (st : Insights.State) (trace : List SyncOp),
        o.malloc_outputs_ok = true → o.malloc_displays_ok = true →
        o.connect_ok = true →
        Insights.init_wayland o s = some (res, st, trace) →
        (o.sync1_ret < 0 →
            res = -1 ∧ st = Insights.initState ∧
            trace = [SyncOp.roundtrip]) ∧
        (0 ≤ o.sync1_ret → o.sync2_ret < 0 →
            res = -1 ∧ st = Insights.initState ∧
            trace = [SyncOp.roundtrip, SyncOp.dispatch]) ∧
        (0 ≤ o.sync1_ret → 0 ≤ o.sync2_ret →
            res = 0 ∧ trace = [SyncOp.roundtrip, SyncOp.dispatch])) ∧
    (∀ (o : Internal.InitOracle) (s : Internal.State) (res : Int)
        (st : Internal.State) (trace : List SyncOp),
        o.malloc_outputs_ok = true → o.malloc_displays_ok = true →
        o.connect_ok = true →
        Internal.init_wayland o s = some (res, st, trace) →
        res = 0 ∧ trace = [SyncOp.roundtrip, SyncOp.roundtrip]) := by
  constructor
  · intro o s res st trace hmo hmd hco h
    unfold Insights.init_wayland at h
    rw [hmo, hmd, hco] at h
    simp only [Bool.and_self, if_true] at h
    split at h
    · cases h
    · rename_i s3 heq1
      split at h
      · rename_i hlt1
        cases hc : Insights.cleanup s3 with
        | none => rw [hc] at h; cases h
        | some c =>
            rw [hc] at h
            simp only [Option.map_some'] at h
            injection h with h
            injection h with h1 h23
            injection h23 with h2 h3
            have hcinit := Insights.cleanup_some s3 c hc
            refine ⟨fun _ => ⟨h1.symm, by rw [← h2, hcinit], h3.symm⟩,
                    fun h0 => absurd hlt1 (not_lt.mpr h0),
                    fun h0 => absurd hlt1 (not_lt.mpr h0)⟩
      · rename_i hge1
        split at h
        · cases h
        · rename_i s4 heq2
          split at h
          · rename_i hlt2
            cases hc : Insights.cleanup s4 with
            | none => rw [hc] at h; cases h
            | some c =>
                rw [hc] at h
                simp only [Option.map_some'] at h
                injection h with h
                injection h with h1 h23
                injection h23 with h2 h3
                have hcinit := Insights.cleanup_some s4 c hc
                refine ⟨fun hl => absurd hl hge1,
                        fun _ _ => ⟨h1.symm, by rw [← h2, hcinit], h3.symm⟩,
                        fun _ h0 => absurd hlt2 (not_lt.mpr h0)⟩
          · rename_i hge2
            injection h with h
            injection h with h1 h23
            injection h23 with h2 h3
            exact ⟨fun hl => absurd hl hge1,
                   fun _ hl => absurd hl hge2,
                   fun _ _ => ⟨h1.symm, h3.symm⟩⟩
  · intro o s res st trace hmo hmd hco h
    unfold Internal.init_wayland at h
    rw [hmo, hmd, hco] at h
    simp only [Bool.true_eq_false, if_false] at h
    split at h
    · cases h
    · split at h
      · cases h
      · injection h with h
        injection h with h1 h23
        injection h23 with h2 h3
        exact ⟨h1.symm, h3.symm⟩

/-- Witness for C1: an Insights session whose first round-trip reports an
error returns -1 with the state torn down and only one synchronization call
made. -/
theorem C1_two_sync_calls_and_errors_witness :
    Insights.init_wayland (Insights.mkOracle [] [] (-1) 0)
      Insights.initState =
      some (-1, Insights.initState, [SyncOp.roundtrip]) ∧
    ((Insights.mkOracle [] [] (-1) 0).sync1_ret < 0 →
      (-1 : Int) = -1 ∧ Insights.initState = Insights.initState ∧
      ([SyncOp.roundtrip] : List SyncOp) = [SyncOp.roundtrip]) := by
  have happ := (C1_two_sync_calls_and_errors.1 (Insights.mkOracle [] [] (-1) 0)
    Insights.initState (-1) Insights.initState [SyncOp.roundtrip]
    rfl rfl rfl (by decide))
  exact ⟨by decide, happ.1⟩

/-- Counterexample to C1 as stated: in the Internal variant both round-trips
report an error (-1), yet `init_wayland` returns 0 (success) with no
teardown — the claim's "if either synchronization call reports an error, it
performs full teardown and returns -1" fails on this variant. -/
theorem C1_counterexample :
    Internal.init_wayland (Internal.mkOracle [] [] (-1) (-1))
      Internal.initState =
      some (0, Internal.readyState, [SyncOp.roundtrip, SyncOp.roundtrip]) :=
  by decide

/-- C4 evidence: the claim is the spec's intent but the code breaks its
final clause.  After four outputs fill the accumulator, a fifth announce
whose grow `realloc`s both fail leaves `memory_error` sticky-true, the four
records intact and readable, the fifth output unappended with no listener
(`count` and `listeners` still 4 entries) — but `capacity` was already
doubled to 8 while both arrays still hold only 4 slots, so a sixth announced
global is written out of bounds (`none`, undefined behaviour) instead of
being processed normally.  In the mixed corner where exactly one `realloc`
succeeds, the failure branch frees the surviving array, making even the
final `cleanup` a double free. -/
theorem C4_alloc_failure_code_bug :
    (Insights.init_wayland
        (Insights.mkOracle Insights.fourOutputsEvents
          [Insights.failingFifthEvent] 0 0) Insights.initState).map
      (fun x => (x.2.1.memory_error, Insights.get_displays x.2.1,
                 x.2.1.count, x.2.1.capacity, x.2.1.listeners)) =
      some (true, some [zeroRecord, zeroRecord, zeroRecord, zeroRecord],
            4, 8, [0, 1, 2, 3]) ∧
    Insights.init_wayland
        (Insights.mkOracle Insights.fourOutputsEvents
          [Insights.failingFifthEvent, Insights.sixthOutputEvent] 0 0)
        Insights.initState = none ∧
    (Insights.init_wayland
        (Insights.mkOracle Insights.fourOutputsEvents
          [Insights.mixedFailFifthEvent] 0 0) Insights.initState).map
      (fun x => Insights.cleanup x.2.1) = some none :=
  ⟨by decide, by decide, by decide⟩

/-- Counterexample to C5 as stated ("cleanup always ... does not fault"): on
the reachable state produced by filling the accumulator and then announcing
a fifth output during which the `outputs` `realloc` succeeds but the
`displays` `realloc` fails, `global_handler`'s failure branch has already
freed the moved `outputs` block, so the subsequent `cleanup` reads and frees
that freed block — undefined behaviour (`none`), not a reset. -/
theorem C5_counterexample :
    (Insights.init_wayland
        (Insights.mkOracle Insights.fourOutputsEvents
          [Insights.mixedFailFifthEvent] 0 0) Insights.initState).map
      (fun x => (Insights.cleanup x.2.1, x.2.1.outputs)) =
      some (none, Insights.CArr.dangling) :=
  by decide

/-- Counterexample to C7 as stated: in the Insights variant a mode event
carrying the current-mode flag does not write to the most recently created
OutputRecord.  In the reachable two-output session (first conjunct: reached
by `init_wayland` when the drain announces two `wl_output` globals), a
current-mode event delivered through output 0's listener (data pointer 0)
writes record 0, while record 1 — the most recently created — is left as the
untouched zeroed record. -/
theorem C7_counterexample :
    Insights.init_wayland
        (Insights.mkOracle
          [Insights.Event.global true true true "wl_output" 5,
           Insights.Event.global true true true "wl_output" 9] [] 0 0)
        Insights.initState =
      some (0, Insights.twoOutputState, [SyncOp.roundtrip, SyncOp.dispatch]) ∧
    Insights.twoOutputState.heap.length = 2 ∧
    (Insights.handle_mode 0 1 1920 1080 60000 Insights.twoOutputState).map
      (fun t => (t.heap[0]?, t.heap[1]?)) =
      some (some (setMode zeroRecord 1920 1080 60000), some zeroRecord) :=
  ⟨by decide, rfl, by decide⟩
